import Mathlib

/-!
Verification of the WhismurAI real-time translation pipeline.

This file gives a shallow embedding of the frame-processing stages found in
`backend/bot.py`, `backend/bot_simplified.py`,
`backend/processors/translation_processor.py` and
`backend/processors/fishaudio_tts.py`, and proves (or refutes) the behavioural
properties stated in the specification: sentence aggregation, conversation
context bounding, translation chunk round-tripping, status-message shape, and
drop-and-continue error handling.

Stateful Python processors become explicit state-passing Lean functions; the
fallible external calls (websocket sends, the translation HTTP call, the TTS
HTTP call) become explicit oracles (a success flag, or an `Except` result),
with the try/except structure of the Python code mirrored by where those
oracle outcomes can and cannot influence the rest of a step.
-/

namespace WhismurAI

/-- Roles of messages in the LLM conversation context. -/
inductive Role
  | system
  | user
  | assistant
  deriving DecidableEq, Repr

/-- One (role, content) message of the conversation context
(`OpenAILLMContext.messages` entries). -/
structure ChatMessage where
  role : Role
  content : String
  deriving DecidableEq, Repr

/-- Pipeline frames: the subset of pipecat frame types the embedded
processors dispatch on (`TranscriptionFrame`, `TextFrame`, `LLMTextFrame`,
`TTSTextFrame`, `AudioRawFrame`, `LLMFullResponseEndFrame`). -/
inductive Frame
  | transcription (text : String)
  | text (text : String)
  | llmText (text : String)
  | ttsText (text : String)
  | audioRaw (audio : List Nat) (sampleRate : Nat) (numChannels : Nat)
  | llmFullResponseEnd
  deriving DecidableEq, Repr

/-- JSON scalar values occurring in the status messages the pipeline sends. -/
inductive JVal
  | s (v : String)
  | b (v : Bool)
  deriving DecidableEq, Repr

/-- JSON object, as an ordered association list (mirrors the dict literals
passed to `websocket.send_json`). -/
abbrev JObj := List (String × JVal)

/-- Python `str.lstrip()` on the character list of a string. -/
def pyLstripList (l : List Char) : List Char :=
  l.dropWhile Char.isWhitespace

/-- Python `str.rstrip()` on the character list of a string. -/
def pyRstripList (l : List Char) : List Char :=
  (l.reverse.dropWhile Char.isWhitespace).reverse

/-- Python `str.strip()`: drop leading and trailing whitespace. -/
def pyStrip (s : String) : String :=
  ⟨pyRstripList (pyLstripList s.data)⟩

/-- Python `str.rstrip()`: drop trailing whitespace. -/
def pyRstrip (s : String) : String :=
  ⟨pyRstripList s.data⟩

/-- The tuple of suffixes tested by the endswith call in `bot.py` line 62:
the period, exclamation mark and question mark, followed by three
three-character sequences that stand, verbatim in the source file, where the
full-width CJK marks were intended (the UTF-8 bytes of those marks
mis-decoded as Mac Roman), so the code never matches the actual single
full-width CJK characters. -/
def sentenceEndSuffixes : List (List Char) :=
  [['.'], ['!'], ['?'], ['„', 'Ä', 'Ç'], ['Ô', 'º', 'Å'], ['Ô', 'º', 'ü']]

/-- Python `str.endswith(tuple)`: true when the string ends with any of the
candidate suffixes. -/
def endswithAny (l : List Char) (candidates : List (List Char)) : Bool :=
  candidates.any (fun candidate => candidate.isSuffixOf l)

/-- The `has_punctuation` test of `SentenceAggregator.process_frame`
(`bot.py` line 62). -/
def has_punctuation (text : String) : Bool :=
  endswithAny (pyRstrip text).data sentenceEndSuffixes

/-- The status-message dict built by `SentenceAggregator` and
`TranslationSender` in `bot.py`, with keys type, mode, text and is_final,
where type is always the string transcript. -/
def transcriptMsg (mode text : String) (is_final : Bool) : JObj :=
  [("type", JVal.s "transcript"), ("mode", JVal.s mode),
   ("text", JVal.s text), ("is_final", JVal.b is_final)]

/-- Result of one `SentenceAggregator.process_frame` call:
the new `sentence_buffer`, the list of websocket messages attempted
(each paired with whether the send succeeded; a failed send is caught by the
try/except in the source and only logged), and the frames pushed downstream. -/
structure AggResult where
  sentence_buffer : String
  sent : List (JObj × Bool)
  pushed : List Frame
  deriving DecidableEq, Repr

/-- Shallow embedding of `SentenceAggregator.process_frame`
(`bot.py` lines 44-144) for a `TranscriptionFrame` input.

The Python code: strips the text; returns early when empty; for interim
frames replaces the buffer with the text and, when the text ends with a
sentence-terminal suffix, sends a final status message, pushes the sentence
downstream and clears the buffer (otherwise sends an interim status message);
for `speech_final` frames sends a final status message, pushes the sentence
and clears the buffer. Every `websocket.send_json` call sits inside a
try/except, so a failed send (modelled by `wsOk = false`) never changes the
buffer update or the downstream push. -/
def SentenceAggregator.process_frame (sentence_buffer frameText : String)
    (speech_final wsOk : Bool) : AggResult :=
  let text := pyStrip frameText
  if text = "" then
    { sentence_buffer := sentence_buffer, sent := [], pushed := [] }
  else if !speech_final then
    if has_punctuation text then
      { sentence_buffer := "",
        sent := [(transcriptMsg "original" text true, wsOk)],
        pushed := [Frame.transcription text] }
    else
      { sentence_buffer := text,
        sent := [(transcriptMsg "original" text false, wsOk)],
        pushed := [] }
  else
    { sentence_buffer := "",
      sent := [(transcriptMsg "original" text true, wsOk)],
      pushed := [Frame.transcription text] }

/-- Fold `SentenceAggregator.process_frame` over a sequence of
(text, speech_final) transcript events, starting from the empty buffer,
accumulating all attempted messages and pushed frames. -/
def SentenceAggregator.run (events : List (String × Bool)) (wsOk : Bool) :
    AggResult :=
  events.foldl
    (fun acc ev =>
      let r := SentenceAggregator.process_frame acc.sentence_buffer ev.1 ev.2 wsOk
      { sentence_buffer := r.sentence_buffer,
        sent := acc.sent ++ r.sent,
        pushed := acc.pushed ++ r.pushed })
    { sentence_buffer := "", sent := [], pushed := [] }

/-- State of the `ContextManager` processor of `bot.py` (lines 275-306):
the wrapped `OpenAILLMContext` message list plus its own frame counter. -/
structure ContextManagerState where
  messages : List ChatMessage
  message_count : Nat
  deriving DecidableEq, Repr

/-- Shallow embedding of `ContextManager.process_frame` (`bot.py` lines
284-306): a `TranscriptionFrame` increments `message_count`; once the counter
reaches `max_messages` the context is reset to just its first message (the
system prompt) and the counter restarts at zero. Any other frame leaves the
state untouched. -/
def ContextManager.process_frame (max_messages : Nat)
    (s : ContextManagerState) (frame : Frame) : ContextManagerState :=
  match frame with
  | Frame.transcription _ =>
    if s.message_count + 1 ≥ max_messages then
      { messages :=
          match s.messages with
          | [] => []
          | m :: _ => [m],
        message_count := 0 }
    else
      { s with message_count := s.message_count + 1 }
  | _ => s

/-- Modelled from the spec: the Translator collaborator (the OpenAI LLM
service, external to this repository) "appends the sentence as a user turn
to `context.history`" when the sentence reaches it; that appending code is
not under `src/`, so it is taken from the words of the specification. -/
def translatorAppend (s : ContextManagerState) (text : String) :
    ContextManagerState :=
  { s with messages := s.messages ++ [{ role := Role.user, content := text }] }

/-- One sentence flowing through the context stage: the `ContextManager`
reset check runs first (it sits upstream of the LLM in the pipeline), then
the translator appends the sentence as a user turn. -/
def processSentence (max_messages : Nat) (s : ContextManagerState)
    (text : String) : ContextManagerState :=
  translatorAppend
    (ContextManager.process_frame max_messages s (Frame.transcription text)) text

/-- Process a whole sequence of sentences through the context stage. -/
def processSentences (max_messages : Nat) (s : ContextManagerState)
    (texts : List String) : ContextManagerState :=
  texts.foldl (processSentence max_messages) s

/-- The initial conversation context built in `run_translation_bot`:
just the system prompt, counter at zero. -/
def initialContext (systemPrompt : String) : ContextManagerState :=
  { messages := [{ role := Role.system, content := systemPrompt }],
    message_count := 0 }

/-- Invariant carried by the context stage: the head of the message list is
the system prompt, the list length is at most `message_count + 2`, and the
counter stays strictly below `max_messages`. -/
def ctxInv (max_messages : Nat) (systemPrompt : String)
    (s : ContextManagerState) : Prop :=
  s.messages.head? = some { role := Role.system, content := systemPrompt } ∧
  s.messages.length ≤ s.message_count + 2 ∧
  s.message_count + 1 ≤ max_messages

/-- Shallow embedding of `TranslationProcessor.process_frame`
(`translation_processor.py` lines 26-52). The `translate` oracle stands for
the awaited HTTP translation call (`Except.error` = the call raised). On a
`TextFrame`: empty or whitespace-only text is skipped entirely; a successful
translation pushes a new `TextFrame` with the translated text; a raised
translation error is caught, logged, and the ORIGINAL frame is pushed
downstream (the `except` branch of the source). Other frames pass through. -/
def TranslationProcessor.process_frame
    (translate : String → Except String String) (frame : Frame) : List Frame :=
  match frame with
  | Frame.text t =>
    if pyStrip t = "" then []
    else
      match translate t with
      | Except.ok translated => [Frame.text translated]
      | Except.error _ => [Frame.text t]
  | f => [f]

/-- Process a sequence of frames through the (stateless)
`TranslationProcessor`; each frame is handled independently, so an error on
one frame cannot affect the others. -/
def TranslationProcessor.run (translate : String → Except String String)
    (frames : List Frame) : List Frame :=
  (frames.map (TranslationProcessor.process_frame translate)).flatten

/-- A translation oracle that always raises (e.g. a rate-limit error). -/
def failingTranslate : String → Except String String :=
  fun _ => Except.error "rate limited"

/-- An HTTP response as seen by `httpx`: status code and body bytes. -/
structure HttpResponse where
  status : Nat
  content : List Nat
  deriving DecidableEq, Repr

/-- The 2xx success test behind `httpx.Response.raise_for_status`. -/
def is2xx (status : Nat) : Bool :=
  200 ≤ status && status < 300

/-- Shallow embedding of `FishAudioTTSService.text_to_speech`
(`fishaudio_tts.py` lines 55-83): `raise_for_status` raises on any non-2xx
response (caught, logged and re-raised by the except clauses), otherwise the
response body bytes are returned. -/
def FishAudioTTSService.text_to_speech (resp : HttpResponse) :
    Except String (List Nat) :=
  if is2xx resp.status then Except.ok resp.content
  else Except.error "HTTP error during TTS"

/-- Shallow embedding of `FishAudioTTSService.process_frame`
(`fishaudio_tts.py` lines 27-53). On a `TextFrame`: empty or whitespace-only
text is skipped; a successful synthesis pushes an `AudioRawFrame` built from
the returned bytes at 16000 Hz mono; a raised synthesis error is caught and
logged and nothing is pushed. Other frames pass through. -/
def FishAudioTTSService.process_frame (resp : HttpResponse) (frame : Frame) :
    List Frame :=
  match frame with
  | Frame.text t =>
    if pyStrip t = "" then []
    else
      match FishAudioTTSService.text_to_speech resp with
      | Except.ok audio => [Frame.audioRaw audio 16000 1]
      | Except.error _ => []
  | f => [f]

/-- Process a sequence of text chunks through the (stateless) TTS stage;
each chunk is paired with the HTTP response its synthesis request receives. -/
def FishAudioTTSService.run (chunks : List (String × HttpResponse)) :
    List Frame :=
  (chunks.map (fun c => FishAudioTTSService.process_frame c.2 (Frame.text c.1))).flatten

/-- Shallow embedding of the `TranslationToTTS` processor
(`bot.py` lines 559-575): every `LLMTextFrame` is converted one-for-one into
a `TTSTextFrame` with the same text; every other frame (including the
end-of-response marker) passes through unchanged. -/
def TranslationToTTS.process_frame (frame : Frame) : List Frame :=
  match frame with
  | Frame.llmText t => [Frame.ttsText t]
  | f => [f]

/-- Run a finite stream of translator output tokens through
`TranslationToTTS`: each token arrives as an `LLMTextFrame`, and the stream
is terminated by the `LLMFullResponseEndFrame` marker. -/
def TranslationToTTS.runTokens : List String → List Frame
  | [] => TranslationToTTS.process_frame Frame.llmFullResponseEnd
  | t :: ts =>
    TranslationToTTS.process_frame (Frame.llmText t) ++ TranslationToTTS.runTokens ts

/-- The text of a `TTSTextFrame`, if the frame is one: these are exactly the
text chunks the synthesizer receives. -/
def ttsTextOf : Frame → Option String
  | Frame.ttsText t => some t
  | _ => none

/-- The synthesizer-bound text chunks among a list of frames. -/
def chunkTexts (frames : List Frame) : List String :=
  frames.filterMap ttsTextOf

/-- Concatenation of a list of strings. -/
def joinAll : List String → String
  | [] => ""
  | t :: ts => t ++ joinAll ts

/-- Shallow embedding of `TranslationSender.process_frame`
(`bot.py` lines 156-249): on an `LLMTextFrame` or `TextFrame` with non-empty
stripped text it sends a translation status message carrying the UNstripped
frame text with `is_final = true` (inside a try/except, so a failed send is
only logged); in every case the incoming frame is pushed through afterwards.
Returns the attempted messages and the pushed frames. -/
def TranslationSender.process_frame (frame : Frame) (wsOk : Bool) :
    List (JObj × Bool) × List Frame :=
  match frame with
  | Frame.llmText t =>
    (if pyStrip t = "" then [] else [(transcriptMsg "translation" t true, wsOk)],
     [Frame.llmText t])
  | Frame.text t =>
    (if pyStrip t = "" then [] else [(transcriptMsg "translation" t true, wsOk)],
     [Frame.text t])
  | f => ([], [f])

/-- The status-message dict built by `TranscriptSender` in
`bot_simplified.py` (lines 46-51), with keys type, text, is_final and
language (the language value is the fixed string en); note that there is no
mode key. -/
def simplifiedMsg (text : String) (is_final : Bool) : JObj :=
  [("type", JVal.s "transcript"), ("text", JVal.s text),
   ("is_final", JVal.b is_final), ("language", JVal.s "en")]

/-- Result of one `TranscriptSender.process_frame` call. -/
structure TranscriptSenderResult where
  last_transcript : String
  sent : List (JObj × Bool)
  pushed : List Frame
  deriving DecidableEq, Repr

/-- Shallow embedding of `TranscriptSender.process_frame`
(`bot_simplified.py` lines 30-61) for a `TranscriptionFrame` input: empty
stripped text is pushed through without a message; otherwise, when the text
changed or the frame is final, a status message is sent and (only if the send
succeeded, since the update sits inside the try) `last_transcript` is updated
(cleared on final); the frame is always pushed through. -/
def TranscriptSender.process_frame (last_transcript frameText : String)
    (speech_final wsOk : Bool) : TranscriptSenderResult :=
  let text := pyStrip frameText
  if text = "" then
    { last_transcript := last_transcript, sent := [],
      pushed := [Frame.transcription frameText] }
  else if text ≠ last_transcript ∨ speech_final = true then
    { last_transcript :=
        if wsOk then (if speech_final then "" else text) else last_transcript,
      sent := [(simplifiedMsg text speech_final, wsOk)],
      pushed := [Frame.transcription frameText] }
  else
    { last_transcript := last_transcript, sent := [],
      pushed := [Frame.transcription frameText] }

/-- The status-message shape stated in the spec: exactly the keys type,
mode, text and is_final, in that order, with type equal to the string
transcript, mode equal to either the string original or the string
translation, a string under text and a boolean under is_final. -/
def isTranscriptShape (j : JObj) : Bool :=
  match j with
  | [("type", JVal.s ty), ("mode", JVal.s mode),
     ("text", JVal.s _), ("is_final", JVal.b _)] =>
    (ty == "transcript") && ((mode == "original") || (mode == "translation"))
  | _ => false


/-! Helper lemmas about the sentence aggregator step. -/

/-- A transcript event whose stripped text is empty is ignored entirely:
no status message, no downstream push, no buffer change. -/
theorem SentenceAggregator.process_frame_empty (buffer text : String)
    (speech_final wsOk : Bool) (he : pyStrip text = "") :
    SentenceAggregator.process_frame buffer text speech_final wsOk =
      { sentence_buffer := buffer, sent := [], pushed := [] } := by
  simp [SentenceAggregator.process_frame, he]

/-- Closed form of the aggregator step on a final transcript event with
non-empty stripped text. -/
theorem SentenceAggregator.process_frame_final (buffer text : String)
    (wsOk : Bool) (hne : pyStrip text ≠ "") :
    SentenceAggregator.process_frame buffer text true wsOk =
      { sentence_buffer := "",
        sent := [(transcriptMsg "original" (pyStrip text) true, wsOk)],
        pushed := [Frame.transcription (pyStrip text)] } := by
  simp [SentenceAggregator.process_frame, hne]

/-- Closed form of the aggregator step on an interim transcript event with
non-empty stripped text. -/
theorem SentenceAggregator.process_frame_interim (buffer text : String)
    (wsOk : Bool) (hne : pyStrip text ≠ "") :
    SentenceAggregator.process_frame buffer text false wsOk =
      if has_punctuation (pyStrip text) then
        { sentence_buffer := "",
          sent := [(transcriptMsg "original" (pyStrip text) true, wsOk)],
          pushed := [Frame.transcription (pyStrip text)] }
      else
        { sentence_buffer := pyStrip text,
          sent := [(transcriptMsg "original" (pyStrip text) false, wsOk)],
          pushed := [] } := by
  simp [SentenceAggregator.process_frame, hne]

/-! Helper lemmas about the context stage. -/

/-- Closed form of one sentence flowing through the context stage. -/
theorem processSentence_eq (max_messages : Nat) (s : ContextManagerState)
    (text : String) :
    processSentence max_messages s text =
      if s.message_count + 1 ≥ max_messages then
        { messages :=
            (match s.messages with
              | [] => []
              | m :: _ => [m]) ++ [{ role := Role.user, content := text }],
          message_count := 0 }
      else
        { messages := s.messages ++ [{ role := Role.user, content := text }],
          message_count := s.message_count + 1 } := by
  unfold processSentence translatorAppend ContextManager.process_frame
  by_cases hc : s.message_count + 1 ≥ max_messages <;> simp [hc]

/-- The initial context satisfies the context invariant. -/
theorem ctxInv_init (max_messages : Nat) (h : 1 ≤ max_messages) (p : String) :
    ctxInv max_messages p (initialContext p) :=
  ⟨rfl, by simp [initialContext], by simpa [initialContext] using h⟩

/-- Processing one sentence preserves the context invariant. -/
theorem ctxInv_step (max_messages : Nat) (p : String) (s : ContextManagerState)
    (text : String) (h : ctxInv max_messages p s) :
    ctxInv max_messages p (processSentence max_messages s text) := by
  obtain ⟨hhead, hlen, hcount⟩ := h
  rw [processSentence_eq]
  cases hs : s.messages with
  | nil => rw [hs] at hhead; simp at hhead
  | cons m rest =>
    have hm0 : m = { role := Role.system, content := p } := by
      rw [hs] at hhead; simpa using hhead
    subst hm0
    rw [hs] at hlen
    simp only [List.length_cons] at hlen
    by_cases hc : s.message_count + 1 ≥ max_messages
    · rw [if_pos hc]
      refine ⟨rfl, by simp, ?_⟩
      simp only
      omega
    · rw [if_neg hc]
      refine ⟨rfl, ?_, ?_⟩
      · simp only [List.cons_append, List.length_cons, List.length_append,
          List.length_nil]
        omega
      · simp only
        omega

/-- Processing any sequence of sentences preserves the context invariant. -/
theorem ctxInv_run (max_messages : Nat) (p : String) (texts : List String)
    (s : ContextManagerState) (h : ctxInv max_messages p s) :
    ctxInv max_messages p (processSentences max_messages s texts) := by
  induction texts generalizing s with
  | nil => exact h
  | cons t ts ih =>
    have he : processSentences max_messages s (t :: ts) =
        processSentences max_messages (processSentence max_messages s t) ts := rfl
    rw [he]
    exact ih (processSentence max_messages s t) (ctxInv_step max_messages p s t h)

/-! Claim C1: context history bound. -/

/-- Claim C1, amended: after processing any sequence of Sentences the
conversation history handed to the Translator never exceeds
max_messages PLUS ONE entries (the bound of the claim as stated,
max_messages, can be exceeded by exactly one, because after a reset the
frame counter restarts at zero while the post-reset history already holds
the system prompt plus the new user turn); enforcement is by truncating the
history back to just the system prompt, which always remains the head of the
history, never by dropping only the oldest entry. -/
theorem contextManager_history_bound (max_messages : Nat)
    (h : 1 ≤ max_messages) (systemPrompt : String) (texts : List String) :
    (processSentences max_messages (initialContext systemPrompt) texts).messages.length
        ≤ max_messages + 1 ∧
    (processSentences max_messages (initialContext systemPrompt) texts).messages.head?
        = some { role := Role.system, content := systemPrompt } := by
  obtain ⟨hhead, hlen, hcount⟩ :=
    ctxInv_run max_messages systemPrompt texts _ (ctxInv_init max_messages h systemPrompt)
  exact ⟨by omega, hhead⟩

/-- Claim C1 witness: the amended bound instantiated at the configuration of
run_translation_bot (max_messages equal to five) on a one-sentence session. -/
theorem contextManager_history_bound_witness :
    (processSentences 5 (initialContext "p") ["hello"]).messages.length ≤ 5 + 1 ∧
    (processSentences 5 (initialContext "p") ["hello"]).messages.head?
        = some { role := Role.system, content := "p" } :=
  contextManager_history_bound 5 (by decide) "p" ["hello"]

/-- Claim C1 counterexample: with max_messages equal to five, as wired in
run_translation_bot, after the ninth sentence the history holds six entries,
exceeding the bound max_messages stated by the claim. -/
theorem contextManager_history_bound_counterexample :
    ¬ ((processSentences 5 (initialContext "prompt")
        (List.replicate 9 "hello")).messages.length ≤ 5) := by
  decide

/-! Claim C2: behaviour on translation errors. -/

/-- Claim C2, amended: for every sentence whose translation call raises, the
exception is caught inside the processor (it does not propagate) and the
session continues processing the surrounding frames unchanged; however the
sentence is NOT dropped: the processor pushes the ORIGINAL untranslated
frame downstream in place of a translation, so the synthesizer still
receives text for that sentence. -/
theorem translationError_passthrough (translate : String → Except String String)
    (t e : String) (herr : translate t = Except.error e) (hne : pyStrip t ≠ "")
    (before after : List Frame) :
    TranslationProcessor.process_frame translate (Frame.text t) = [Frame.text t] ∧
    TranslationProcessor.run translate (before ++ Frame.text t :: after) =
      TranslationProcessor.run translate before ++ Frame.text t ::
        TranslationProcessor.run translate after := by
  have h1 : TranslationProcessor.process_frame translate (Frame.text t)
      = [Frame.text t] := by
    simp [TranslationProcessor.process_frame, hne, herr]
  exact ⟨h1, by simp [TranslationProcessor.run, h1]⟩

/-- Claim C2 witness: the always-raising translation oracle on one concrete
sentence, inside an otherwise empty session. -/
theorem translationError_passthrough_witness :
    TranslationProcessor.process_frame failingTranslate (Frame.text "Hello")
        = [Frame.text "Hello"] ∧
    TranslationProcessor.run failingTranslate ([] ++ Frame.text "Hello" :: []) =
      TranslationProcessor.run failingTranslate [] ++ Frame.text "Hello" ::
        TranslationProcessor.run failingTranslate [] :=
  translationError_passthrough failingTranslate "Hello" "rate limited" rfl
    (by decide) [] []

/-- Claim C2 counterexample: when the translation call for the sentence
Hello raises, the processor does forward text for that sentence downstream
(the original frame), refuting the claim that no text is forwarded to the
synthesizer. -/
theorem translationError_drop_counterexample :
    TranslationProcessor.process_frame failingTranslate (Frame.text "Hello")
        = [Frame.text "Hello"] ∧
    TranslationProcessor.process_frame failingTranslate (Frame.text "Hello") ≠ [] := by
  decide

/-! Claim C3: interim sentence-boundary detection. -/

/-- Claim C3 counterexample: there is no positive minimum length threshold
below which interim emission is suppressed: a lone period, of stripped
length one, is already emitted as a completed Sentence, so no threshold of
at least one is compatible with the code. -/
theorem aggregatorThreshold_counterexample :
    ¬ ∃ L : Nat, 1 ≤ L ∧
        ∀ (buffer text : String) (wsOk : Bool),
          (SentenceAggregator.process_frame buffer text false wsOk).pushed ≠ [] →
            L < (pyStrip text).length := by
  rintro ⟨L, hL, h⟩
  have h1 := h "" "." true (by decide)
  have h2 : (pyStrip ".").length = 1 := by decide
  omega

/-- Claim C3, amended: an interim transcript event with non-empty stripped
text is emitted as a completed Sentence exactly when its trailing characters
match the sentence-terminal suffix set of the code, with NO minimum length
condition (and the buffer is cleared on emission, otherwise replaced by the
text); in particular the interim event sequence Hi, Hi there, Hi there.
emits exactly one Sentence, namely Hi there., and resets the buffer to
empty. -/
theorem aggregatorInterim_punctuation (buffer text : String) (wsOk : Bool)
    (hne : pyStrip text ≠ "") :
    ((SentenceAggregator.process_frame buffer text false wsOk).pushed =
        if has_punctuation (pyStrip text) then [Frame.transcription (pyStrip text)]
        else []) ∧
    ((SentenceAggregator.process_frame buffer text false wsOk).sentence_buffer =
        if has_punctuation (pyStrip text) then "" else pyStrip text) ∧
    SentenceAggregator.run [("Hi", false), ("Hi there", false), ("Hi there.", false)] wsOk =
      { sentence_buffer := "",
        sent := [(transcriptMsg "original" "Hi" false, wsOk),
                 (transcriptMsg "original" "Hi there" false, wsOk),
                 (transcriptMsg "original" "Hi there." true, wsOk)],
        pushed := [Frame.transcription "Hi there."] } := by
  rw [SentenceAggregator.process_frame_interim buffer text wsOk hne]
  refine ⟨?_, ?_, ?_⟩
  · by_cases hp : has_punctuation (pyStrip text) <;> simp [hp]
  · by_cases hp : has_punctuation (pyStrip text) <;> simp [hp]
  · cases wsOk <;> decide

/-- Claim C3 witness: the amended statement instantiated at the third event
of the example sequence. -/
theorem aggregatorInterim_punctuation_witness :
    ((SentenceAggregator.process_frame "" "Hi there." false true).pushed =
        if has_punctuation (pyStrip "Hi there.") then
          [Frame.transcription (pyStrip "Hi there.")]
        else []) ∧
    ((SentenceAggregator.process_frame "" "Hi there." false true).sentence_buffer =
        if has_punctuation (pyStrip "Hi there.") then "" else pyStrip "Hi there.") ∧
    SentenceAggregator.run [("Hi", false), ("Hi there", false), ("Hi there.", false)] true =
      { sentence_buffer := "",
        sent := [(transcriptMsg "original" "Hi" false, true),
                 (transcriptMsg "original" "Hi there" false, true),
                 (transcriptMsg "original" "Hi there." true, true)],
        pushed := [Frame.transcription "Hi there."] } :=
  aggregatorInterim_punctuation "" "Hi there." true (by decide)

/-! Claim C4: chunker round trip. -/

/-- Claim C4, confirmed: for every finite stream of translator output
tokens, the concatenation of the text chunks the TranslationToTTS stage
hands to the synthesizer (the stream-end marker included) equals the
concatenation of all input tokens: no text is lost or duplicated between
the Translator and the Synthesizer. -/
theorem chunker_no_loss (tokens : List String) :
    joinAll (chunkTexts (TranslationToTTS.runTokens tokens)) = joinAll tokens := by
  induction tokens with
  | nil => rfl
  | cons t ts ih =>
    simp only [TranslationToTTS.runTokens, TranslationToTTS.process_frame,
      chunkTexts, List.filterMap_append, List.filterMap_cons, ttsTextOf,
      List.filterMap_nil, List.append_eq, List.nil_append, List.append_nil,
      joinAll] at ih ⊢
    rw [ih]

/-! Claim C5: final transcript events. -/

/-- Claim C5, confirmed: every final transcript event with non-empty
stripped text makes the aggregator emit exactly one Sentence carrying that
stripped text, with no condition on trailing punctuation, and reset its
internal buffer to the empty string. -/
theorem aggregatorFinal_emit (buffer text : String) (wsOk : Bool)
    (hne : pyStrip text ≠ "") :
    (SentenceAggregator.process_frame buffer text true wsOk).pushed =
        [Frame.transcription (pyStrip text)] ∧
    (SentenceAggregator.process_frame buffer text true wsOk).sentence_buffer = "" := by
  rw [SentenceAggregator.process_frame_final buffer text wsOk hne]
  exact ⟨rfl, rfl⟩

/-- Claim C5 witness: the final event How are you, which carries no
sentence-terminal punctuation, is emitted unchanged. -/
theorem aggregatorFinal_emit_witness :
    (SentenceAggregator.process_frame "left over" "How are you" true true).pushed =
        [Frame.transcription (pyStrip "How are you")] ∧
    (SentenceAggregator.process_frame "left over" "How are you" true true).sentence_buffer
        = "" :=
  aggregatorFinal_emit "left over" "How are you" true (by decide)

/-! Claim C6: empty interim events. -/

/-- Claim C6, confirmed: every interim transcript event whose text is empty
after stripping emits no Sentence downstream and leaves the internal
sentence buffer unchanged. -/
theorem aggregatorEmptyInterim_ignored (buffer text : String) (wsOk : Bool)
    (he : pyStrip text = "") :
    (SentenceAggregator.process_frame buffer text false wsOk).pushed = [] ∧
    (SentenceAggregator.process_frame buffer text false wsOk).sentence_buffer
        = buffer := by
  rw [SentenceAggregator.process_frame_empty buffer text false wsOk he]
  exact ⟨rfl, rfl⟩

/-- Claim C6 witness: a whitespace-only interim event against a non-empty
buffer. -/
theorem aggregatorEmptyInterim_ignored_witness :
    (SentenceAggregator.process_frame "partial" "   " false true).pushed = [] ∧
    (SentenceAggregator.process_frame "partial" "   " false true).sentence_buffer
        = "partial" :=
  aggregatorEmptyInterim_ignored "partial" "   " true (by decide)

/-! Claim C7: status message shape. -/

/-- Claim C7, amended: every status message sent by the SentenceAggregator
and by the TranslationSender of bot.py has exactly the claimed shape, with
keys type, mode, text and is_final and with mode either original or
translation; but the transcript messages of the TranscriptSender of
bot_simplified.py carry NO mode key at all (they have keys type, text,
is_final and language instead). -/
theorem statusMessage_shape (buffer text last : String) (speech_final wsOk : Bool)
    (m1 m2 m3 : JObj) (d1 d2 d3 : Bool) (frame : Frame)
    (h1 : (m1, d1) ∈ (SentenceAggregator.process_frame buffer text speech_final wsOk).sent)
    (h2 : (m2, d2) ∈ (TranslationSender.process_frame frame wsOk).1)
    (h3 : (m3, d3) ∈ (TranscriptSender.process_frame last text speech_final wsOk).sent) :
    isTranscriptShape m1 = true ∧ isTranscriptShape m2 = true ∧
    m3.lookup "mode" = none ∧ m3.lookup "type" = some (JVal.s "transcript") ∧
    m3.lookup "language" = some (JVal.s "en") := by
  refine ⟨?_, ?_, ?_⟩
  · by_cases he : pyStrip text = ""
    · rw [SentenceAggregator.process_frame_empty buffer text speech_final wsOk he] at h1
      simp at h1
    · cases speech_final
      · rw [SentenceAggregator.process_frame_interim buffer text wsOk he] at h1
        by_cases hp : has_punctuation (pyStrip text)
        · simp [hp] at h1
          rw [h1.1]
          rfl
        · simp [hp] at h1
          rw [h1.1]
          rfl
      · rw [SentenceAggregator.process_frame_final buffer text wsOk he] at h1
        simp at h1
        rw [h1.1]
        rfl
  · cases frame with
    | llmText t =>
      by_cases ht : pyStrip t = ""
      · simp [TranslationSender.process_frame, ht] at h2
      · simp [TranslationSender.process_frame, ht] at h2
        rw [h2.1]
        rfl
    | text t =>
      by_cases ht : pyStrip t = ""
      · simp [TranslationSender.process_frame, ht] at h2
      · simp [TranslationSender.process_frame, ht] at h2
        rw [h2.1]
        rfl
    | transcription t => simp [TranslationSender.process_frame] at h2
    | ttsText t => simp [TranslationSender.process_frame] at h2
    | audioRaw a r c => simp [TranslationSender.process_frame] at h2
    | llmFullResponseEnd => simp [TranslationSender.process_frame] at h2
  · by_cases he : pyStrip text = ""
    · simp [TranscriptSender.process_frame, he] at h3
    · by_cases hcond : pyStrip text ≠ last ∨ speech_final = true
      · simp only [TranscriptSender.process_frame, he, if_neg, if_pos hcond] at h3
        simp at h3
        rw [h3.1]
        exact ⟨rfl, rfl, rfl⟩
      · simp [TranscriptSender.process_frame, he, hcond] at h3

/-- Claim C7 witness: one concrete reachable message of each of the three
senders. -/
theorem statusMessage_shape_witness :
    isTranscriptShape (transcriptMsg "original" "Hello" true) = true ∧
    isTranscriptShape (transcriptMsg "translation" "Hola" true) = true ∧
    (simplifiedMsg "Hello" true).lookup "mode" = none ∧
    (simplifiedMsg "Hello" true).lookup "type" = some (JVal.s "transcript") ∧
    (simplifiedMsg "Hello" true).lookup "language" = some (JVal.s "en") :=
  statusMessage_shape "" "Hello" "" true true
    (transcriptMsg "original" "Hello" true)
    (transcriptMsg "translation" "Hola" true)
    (simplifiedMsg "Hello" true) true true true
    (Frame.llmText "Hola") (by decide) (by decide) (by decide)

/-- Claim C7 counterexample: the TranscriptSender of bot_simplified.py, one
of the structured status senders of the pipeline, sends for the interim
event Hello a message that does not have the claimed shape and carries no
mode key at all. -/
theorem statusMessage_shape_counterexample :
    (TranscriptSender.process_frame "" "Hello" false true).sent =
      [(simplifiedMsg "Hello" false, true)] ∧
    isTranscriptShape (simplifiedMsg "Hello" false) = false ∧
    (simplifiedMsg "Hello" false).lookup "mode" = none := by
  decide

/-! Claim C8: behaviour on synthesis errors. -/

/-- Claim C8, confirmed: for every chunk whose synthesis request receives a
non-2xx response, the TTS stage emits no audio for that chunk, the raised
error is caught inside the stage (the step is total, nothing propagates),
and the surrounding chunks of the session are processed exactly as they
would be without the failing chunk. -/
theorem ttsError_skip (status : Nat) (content : List Nat) (t : String)
    (hfail : is2xx status = false) (hne : pyStrip t ≠ "")
    (before after : List (String × HttpResponse)) :
    FishAudioTTSService.process_frame { status := status, content := content }
        (Frame.text t) = [] ∧
    FishAudioTTSService.run
        (before ++ (t, { status := status, content := content }) :: after) =
      FishAudioTTSService.run before ++ FishAudioTTSService.run after := by
  have hp : FishAudioTTSService.process_frame { status := status, content := content }
      (Frame.text t) = [] := by
    simp [FishAudioTTSService.process_frame, FishAudioTTSService.text_to_speech,
      hne, hfail]
  exact ⟨hp, by simp [FishAudioTTSService.run, hp]⟩

/-- Claim C8 witness: a 500 response for one chunk between two successful
chunks. -/
theorem ttsError_skip_witness :
    FishAudioTTSService.process_frame { status := 500, content := [1, 2] }
        (Frame.text "Hola") = [] ∧
    FishAudioTTSService.run
        ([("a", { status := 200, content := [7] })] ++
          ("Hola", { status := 500, content := [1, 2] }) ::
            [("b", { status := 200, content := [8] })]) =
      FishAudioTTSService.run [("a", { status := 200, content := [7] })] ++
        FishAudioTTSService.run [("b", { status := 200, content := [8] })] :=
  ttsError_skip 500 [1, 2] "Hola" (by decide) (by decide)
    [("a", { status := 200, content := [7] })]
    [("b", { status := 200, content := [8] })]

/-! Claim C9: side-channel status updates. -/

/-- Claim C9, amended: every transcript event with NON-EMPTY stripped text
triggers exactly one side-channel status update carrying the original
stripped text and the final or interim flag, and a failure of the websocket
send does not abort the pipeline: the frames pushed downstream and the
buffer update are identical to those of a successful send. Events whose
stripped text is empty trigger no status update at all, contrary to the
universally quantified claim. -/
theorem aggregatorStatus_resilient (buffer text : String) (speech_final wsOk : Bool)
    (hne : pyStrip text ≠ "") :
    (SentenceAggregator.process_frame buffer text speech_final wsOk).sent.map Prod.fst =
      [transcriptMsg "original" (pyStrip text)
          (speech_final || has_punctuation (pyStrip text))] ∧
    (SentenceAggregator.process_frame buffer text speech_final wsOk).pushed =
      (SentenceAggregator.process_frame buffer text speech_final true).pushed ∧
    (SentenceAggregator.process_frame buffer text speech_final wsOk).sentence_buffer =
      (SentenceAggregator.process_frame buffer text speech_final true).sentence_buffer := by
  cases speech_final
  · rw [SentenceAggregator.process_frame_interim buffer text wsOk hne,
      SentenceAggregator.process_frame_interim buffer text true hne]
    by_cases hp : has_punctuation (pyStrip text) <;> simp [hp]
  · rw [SentenceAggregator.process_frame_final buffer text wsOk hne,
      SentenceAggregator.process_frame_final buffer text true hne]
    simp

/-- Claim C9 witness: a sentence-completing interim event whose websocket
send fails; the status update is still the one attempted message and the
Sentence is still pushed. -/
theorem aggregatorStatus_resilient_witness :
    (SentenceAggregator.process_frame "" "Hi there." false false).sent.map Prod.fst =
      [transcriptMsg "original" (pyStrip "Hi there.")
          (false || has_punctuation (pyStrip "Hi there."))] ∧
    (SentenceAggregator.process_frame "" "Hi there." false false).pushed =
      (SentenceAggregator.process_frame "" "Hi there." false true).pushed ∧
    (SentenceAggregator.process_frame "" "Hi there." false false).sentence_buffer =
      (SentenceAggregator.process_frame "" "Hi there." false true).sentence_buffer :=
  aggregatorStatus_resilient "" "Hi there." false false (by decide)

/-- Claim C9 counterexample: not every transcript event triggers a status
update: a whitespace-only interim event sends nothing at all. -/
theorem statusEveryEvent_counterexample :
    ¬ ∀ (buffer text : String) (speech_final wsOk : Bool),
        (SentenceAggregator.process_frame buffer text speech_final wsOk).sent ≠ [] := by
  intro h
  exact h "buf" "   " false true (by decide)

/-! Claim C10: buffer reset after every emission. -/

/-- Claim C10, confirmed: immediately after any aggregator step that pushes
a Sentence downstream, whether through the final-flag path or the
interim-punctuation path, the internal sentence buffer is the empty string,
so no already-emitted text can be re-emitted or prefixed onto a later
Sentence. -/
theorem aggregatorBuffer_reset (buffer text : String) (speech_final wsOk : Bool)
    (h : (SentenceAggregator.process_frame buffer text speech_final wsOk).pushed ≠ []) :
    (SentenceAggregator.process_frame buffer text speech_final wsOk).sentence_buffer
      = "" := by
  by_cases he : pyStrip text = ""
  · rw [SentenceAggregator.process_frame_empty buffer text speech_final wsOk he] at h
    simp at h
  · cases speech_final
    · rw [SentenceAggregator.process_frame_interim buffer text wsOk he] at h ⊢
      by_cases hp : has_punctuation (pyStrip text)
      · simp [hp]
      · simp [hp] at h
    · rw [SentenceAggregator.process_frame_final buffer text wsOk he]

/-- Claim C10 witness: an emitting interim step over a non-empty prior
buffer leaves the buffer empty. -/
theorem aggregatorBuffer_reset_witness :
    (SentenceAggregator.process_frame "x" "Hi." false true).sentence_buffer = "" :=
  aggregatorBuffer_reset "x" "Hi." false true (by decide)

end WhismurAI
